import Mathlib

/-!
Verification of the mock-aptitude test platform's attempt lifecycle and
scoring engine, shallowly embedded from
`supabase/functions/test-management/index.ts` (the `start-test`,
`submit-answer` and `submit-test` actions) and from the client-side
`loadActiveTest` admission check in the student test component.

Timestamps are modelled as integers (milliseconds); `Date` comparison in
the source compares these numbers.  Scores are exact rationals: the
source works with JavaScript numbers but only ever adds `1` and subtracts
`0.25`, both exactly representable, so `Rat` is a faithful model of the
arithmetic actually performed.
-/

namespace MockAptitude

/-- A row of the `tests` table (fields the core logic reads). -/
structure Test where
  id : Nat
  start_time : Int
  end_time : Int
  is_active : Bool
  total_questions : Nat
  deriving Repr, DecidableEq

/-- A row of the `questions` table (fields the core logic reads). -/
structure Question where
  id : Nat
  test_id : Nat
  correct_answer : String
  deriving Repr, DecidableEq

/-- A row of the `test_attempts` table. -/
structure Attempt where
  id : Nat
  student_id : Nat
  test_id : Nat
  started_at : Int
  submitted_at : Option Int
  score : Rat
  is_completed : Bool
  deriving Repr, DecidableEq

/-- A row of the `student_answers` table. -/
structure Answer where
  attempt_id : Nat
  question_id : Nat
  selected_answer : String
  is_correct : Bool
  deriving Repr, DecidableEq

/-- The persistent store the edge function reads and writes. -/
structure DB where
  tests : List Test
  questions : List Question
  test_attempts : List Attempt
  student_answers : List Answer
  deriving Repr, DecidableEq

/-- PostgREST `.single()`: yields a row exactly when the query returned
one row, and an error (here `none`) otherwise. -/
def single? {α : Type} (l : List α) : Option α :=
  match l with
  | [x] => some x
  | _ => none

/-- Outcome of the `start-test` action: either `{attemptId, startedAt}`
or an error response with the literal message from the source. -/
inductive StartResult where
  | ok (attemptId : Nat) (startedAt : Int)
  | err (msg : String)
  deriving Repr, DecidableEq

/-- The `start-test` action of `test-management/index.ts`:
looks up the test with `.eq('id', testId).eq('is_active', true).single()`,
rejects outside `[start_time, end_time]`, resumes an existing
non-completed attempt, rejects a completed one, and otherwise inserts a
fresh attempt (`newAttemptId` models the id the store assigns;
`started_at` is the current time). -/
def startTest (db : DB) (now : Int) (newAttemptId : Nat)
    (studentId testId : Nat) : StartResult × DB :=
  match single? (db.tests.filter (fun t => t.id == testId && t.is_active)) with
  | none => (.err "Test not found or not active", db)
  | some test =>
    if now < test.start_time || now > test.end_time then
      (.err "Test is not available at this time", db)
    else
      match single? (db.test_attempts.filter
          (fun a => a.student_id == studentId && a.test_id == testId)) with
      | some existingAttempt =>
        if existingAttempt.is_completed then
          (.err "You have already completed this test", db)
        else
          (.ok existingAttempt.id existingAttempt.started_at, db)
      | none =>
        let attempt : Attempt :=
          { id := newAttemptId, student_id := studentId, test_id := testId,
            started_at := now, submitted_at := none, score := 0,
            is_completed := false }
        (.ok newAttemptId now,
         { db with test_attempts := db.test_attempts ++ [attempt] })

/-- Outcome of the `submit-answer` action. -/
inductive AnswerResult where
  | success
  | err (msg : String)
  deriving Repr, DecidableEq

/-- `.upsert(..)` on `student_answers`, keyed by the unique
`(attempt_id, question_id)` pair: overwrites the existing row for that
key, else inserts a new row. -/
def upsertAnswer (answers : List Answer) (a : Answer) : List Answer :=
  if answers.any (fun x => x.attempt_id == a.attempt_id
      && x.question_id == a.question_id) then
    answers.map (fun x =>
      if x.attempt_id == a.attempt_id && x.question_id == a.question_id
      then a else x)
  else
    answers ++ [a]

/-- The `isCorrect` computation of `submit-answer`: looks up the
question's `correct_answer`; `question?.correct_answer === selectedAnswer`
is `false` when the lookup returned no row (optional chaining yields
`undefined`, and `undefined === s` is `false` for a string `s`), and an
exact string comparison otherwise. -/
def answerIsCorrect (db : DB) (questionId : Nat)
    (selectedAnswer : String) : Bool :=
  match single? (db.questions.filter (fun q => q.id == questionId)) with
  | some q => q.correct_answer == selectedAnswer
  | none => false

/-- The `submit-answer` action of `test-management/index.ts`: computes
`isCorrect` and upserts the answer row.  No check of the owning attempt's
completion state appears anywhere in this handler. -/
def submitAnswer (db : DB) (attemptId questionId : Nat)
    (selectedAnswer : String) : AnswerResult × DB :=
  let row : Answer :=
    { attempt_id := attemptId, question_id := questionId,
      selected_answer := selectedAnswer,
      is_correct := answerIsCorrect db questionId selectedAnswer }
  (.success, { db with student_answers := upsertAnswer db.student_answers row })

/-- The response body of a successful `submit-test` call.
`unattempted` is an integer because the source computes `40 - attempted`
with no lower bound. -/
structure SubmitResult where
  score : Rat
  attempted : Nat
  correct : Nat
  incorrect : Nat
  unattempted : Int
  deriving Repr, DecidableEq

/-- The `forEach` loop of `submit-test`: one pass over the attempt's
answers accumulating `(score, correct, incorrect)` from
`(0, 0, 0)`, adding `1` to the score per correct answer and subtracting
`0.25` per incorrect one. -/
def tally (answers : List Answer) : Rat × Nat × Nat :=
  answers.foldl
    (fun acc a =>
      if a.is_correct then (acc.1 + 1, acc.2.1 + 1, acc.2.2)
      else (acc.1 - 1/4, acc.2.1, acc.2.2 + 1))
    ((0 : Rat), 0, 0)

/-- The `submit-test` action of `test-management/index.ts`: reads all
answers of the attempt, tallies score/correct/incorrect, sets
`attempted` to the number of answer rows and `unattempted` to the literal
`40 - attempted`, then updates the attempt row with
`submitted_at = now`, the computed `score`, and `is_completed = true`.
No check of `is_completed` appears anywhere in this handler. -/
def submitTest (db : DB) (now : Int) (attemptId : Nat) :
    SubmitResult × DB :=
  let answers := db.student_answers.filter (fun a => a.attempt_id == attemptId)
  let acc := tally answers
  let score := acc.1
  let correct := acc.2.1
  let incorrect := acc.2.2
  let attempted := answers.length
  let unattempted : Int := 40 - (attempted : Int)
  let db' := { db with
    test_attempts := db.test_attempts.map (fun a =>
      if a.id == attemptId then
        { a with submitted_at := some now, score := score,
                 is_completed := true }
      else a) }
  ({ score := score, attempted := attempted, correct := correct,
     incorrect := incorrect, unattempted := unattempted }, db')

/-- Denials produced by the client-side `loadActiveTest` admission check.
Each constructor corresponds to one `setError(...)` call in the source;
`willStartAt` carries the interpolated start time of
`Test will start at ${startTime.toLocaleString()}`. -/
inductive ClientLoad where
  | noActiveTest
  | willStartAt (startTime : Int)
  | expired
  | wrongQuestionCount
  | ready (t : Test)
  deriving Repr, DecidableEq

/-- The admission portion of the client's `loadActiveTest`: selects the
single active test (`.eq('is_active', true).single()`), reports the
start time if the test has not started, reports expiry if it has ended,
and requires exactly 40 questions before proceeding. -/
def loadActiveTest (db : DB) (now : Int) : ClientLoad :=
  match single? (db.tests.filter (fun t => t.is_active)) with
  | none => .noActiveTest
  | some tests =>
    if now < tests.start_time then
      .willStartAt tests.start_time
    else if now > tests.end_time then
      .expired
    else
      let questionsData := db.questions.filter (fun q => q.test_id == tests.id)
      if questionsData.length ≠ 40 then
        .wrongQuestionCount
      else
        .ready tests

/-! ## Helper lemmas -/

theorem tally_aux (l : List Answer) (s : Rat) (c i : Nat) :
    List.foldl
      (fun acc a =>
        if a.is_correct then (acc.1 + 1, acc.2.1 + 1, acc.2.2)
        else (acc.1 - 1/4, acc.2.1, acc.2.2 + 1))
      ((s, c, i) : Rat × Nat × Nat) l
    = (s + ((l.filter (fun a => a.is_correct)).length : Rat)
         - ((l.filter (fun a => !a.is_correct)).length : Rat) / 4,
       c + (l.filter (fun a => a.is_correct)).length,
       i + (l.filter (fun a => !a.is_correct)).length) := by
  induction l generalizing s c i with
  | nil => simp
  | cons a l ih =>
    cases ha : a.is_correct
    case true =>
      have hC : (a :: l).filter (fun a => a.is_correct)
          = a :: l.filter (fun a => a.is_correct) := by
        simp [List.filter_cons, ha]
      have hI : (a :: l).filter (fun a => !a.is_correct)
          = l.filter (fun a => !a.is_correct) := by
        simp [List.filter_cons, ha]
      rw [List.foldl_cons, if_pos ha, ih, hC, hI]
      simp only [List.length_cons, Prod.mk.injEq]
      refine ⟨?_, by omega, trivial⟩
      push_cast
      ring
    case false =>
      have hC : (a :: l).filter (fun a => a.is_correct)
          = l.filter (fun a => a.is_correct) := by
        simp [List.filter_cons, ha]
      have hI : (a :: l).filter (fun a => !a.is_correct)
          = a :: l.filter (fun a => !a.is_correct) := by
        simp [List.filter_cons, ha]
      rw [List.foldl_cons, if_neg (by simp [ha]), ih, hC, hI]
      simp only [List.length_cons, Prod.mk.injEq]
      refine ⟨?_, trivial, by omega⟩
      push_cast
      ring

theorem tally_eq (l : List Answer) :
    tally l
    = (((l.filter (fun a => a.is_correct)).length : Rat)
         - ((l.filter (fun a => !a.is_correct)).length : Rat) / 4,
       (l.filter (fun a => a.is_correct)).length,
       (l.filter (fun a => !a.is_correct)).length) := by
  have h := tally_aux l 0 0 0
  simpa [tally] using h

/-! ## C4: scoring formula -/

/-- A concrete store: one active test, an attempt, 10 correct and 5
incorrect recorded answers for attempt 1. -/
def dbC4 : DB :=
  { tests := [{ id := 1, start_time := 0, end_time := 7200000,
                is_active := true, total_questions := 40 }],
    questions := [],
    test_attempts := [{ id := 1, student_id := 1, test_id := 1,
                        started_at := 0, submitted_at := none,
                        score := 0, is_completed := false }],
    student_answers :=
      (List.range 10).map (fun k =>
        { attempt_id := 1, question_id := k, selected_answer := "A",
          is_correct := true }) ++
      (List.range 5).map (fun k =>
        { attempt_id := 1, question_id := 10 + k, selected_answer := "B",
          is_correct := false }) }

/-- C4: `submit-test` computes `score = correct * 1 + incorrect * (-0.25)`
exactly (as a rational, never rounded), unattempted questions contributing
nothing; in particular 10 correct and 5 incorrect answers score 8.75. -/
theorem submitTest_score_formula :
    (∀ (db : DB) (now : Int) (attemptId : Nat),
      (submitTest db now attemptId).1.score
        = ((submitTest db now attemptId).1.correct : Rat) * 1
          + ((submitTest db now attemptId).1.incorrect : Rat) * (-(1/4)))
    ∧ (∀ (db : DB) (now : Int) (attemptId : Nat),
      (submitTest db now attemptId).1.correct
        = ((db.student_answers.filter
            (fun a => a.attempt_id == attemptId)).filter
              (fun a => a.is_correct)).length
      ∧ (submitTest db now attemptId).1.incorrect
        = ((db.student_answers.filter
            (fun a => a.attempt_id == attemptId)).filter
              (fun a => !a.is_correct)).length)
    ∧ (submitTest dbC4 1000 1).1.score = 35/4
    ∧ (35 : Rat)/4 = 8.75 := by
  refine ⟨?_, ?_, ?_, by norm_num⟩
  · intro db now attemptId
    simp only [submitTest, tally_eq]
    ring_nf
  · intro db now attemptId
    constructor <;> simp only [submitTest, tally_eq]
  · have h10 : ((dbC4.student_answers.filter
        (fun a => a.attempt_id == 1)).filter
          (fun a => a.is_correct)).length = 10 := by decide
    have h5 : ((dbC4.student_answers.filter
        (fun a => a.attempt_id == 1)).filter
          (fun a => !a.is_correct)).length = 5 := by decide
    simp only [submitTest, tally_eq, h10, h5]
    norm_num

/-! ## C3: `unattempted` hard-codes 40 instead of the test's
`total_questions` -/

/-- A concrete store whose test is configured with
`total_questions = 50`, and whose attempt has 10 recorded answers. -/
def dbC3 : DB :=
  { tests := [{ id := 1, start_time := 0, end_time := 7200000,
                is_active := true, total_questions := 50 }],
    questions := [],
    test_attempts := [{ id := 1, student_id := 1, test_id := 1,
                        started_at := 0, submitted_at := none,
                        score := 0, is_completed := false }],
    student_answers :=
      (List.range 10).map (fun k =>
        { attempt_id := 1, question_id := k, selected_answer := "A",
          is_correct := true }) }

/-- C3: the code computes `unattempted = 40 - attempted` with a literal
40, ignoring the owning test's configured `total_questions`.  With
`total_questions = 50` and 10 recorded answers it reports
`unattempted = 30`, so `attempted + unattempted = 40 ≠ 50`. -/
theorem submitTest_unattempted_hardcodes_forty :
    dbC3.tests.map Test.total_questions = [50]
    ∧ (submitTest dbC3 100 1).1.attempted = 10
    ∧ (submitTest dbC3 100 1).1.unattempted = 30
    ∧ ((submitTest dbC3 100 1).1.attempted : Int)
        + (submitTest dbC3 100 1).1.unattempted ≠ 50 := by
  decide

/-! ## C7: time-window admissibility -/

/-- The `start-test` responses classed as `TestUnavailable` in the spec's
taxonomy: activation failure and time-window failure. -/
def unavailableErr (r : StartResult) : Bool :=
  r == .err "Test not found or not active"
  || r == .err "Test is not available at this time"

/-- C7: for a store holding the test `t`, `start-test` avoids the
`TestUnavailable` errors exactly when `t.is_active` and
`t.start_time ≤ now ≤ t.end_time`, both bounds inclusive (the source
rejects only `now < startTime || now > endTime`). -/
theorem startTest_admissible_iff (db : DB) (t : Test) (now : Int)
    (newAttemptId studentId : Nat) (ht : db.tests = [t]) :
    unavailableErr (startTest db now newAttemptId studentId t.id).1 = false
    ↔ (t.is_active = true ∧ t.start_time ≤ now ∧ now ≤ t.end_time) := by
  cases hact : t.is_active
  case false =>
    simp [startTest, ht, single?, hact, unavailableErr]
  case true =>
    have hfilter : (db.tests.filter (fun x => x.id == t.id && x.is_active)) = [t] := by
      simp [ht, List.filter_cons, hact]
    have hsingle : single? (db.tests.filter
        (fun x => x.id == t.id && x.is_active)) = some t := by
      rw [hfilter]; rfl
    by_cases hwin : now < t.start_time || now > t.end_time
    · simp only [startTest, hsingle, hwin, if_true]
      simp only [Bool.or_eq_true, decide_eq_true_eq] at hwin
      simp [unavailableErr]
      omega
    · have hwin2 := hwin
      simp only [Bool.or_eq_true, decide_eq_true_eq, not_or, not_lt] at hwin2
      cases hatt : single? (db.test_attempts.filter
          (fun a => a.student_id == studentId && a.test_id == t.id)) with
      | none =>
        simp only [startTest, hsingle, hwin, if_false, hatt]
        simp [unavailableErr, hact, hwin2]
      | some ea =>
        by_cases hc : ea.is_completed <;>
          · simp only [startTest, hsingle, hwin, if_false, hatt]
            simp [unavailableErr, hact, hwin2, hc]

/-- A concrete admissible store for the C7 witness: one active test whose
window opened an hour ago (relative to `now = 3600000`) and closes an
hour from now. -/
def dbC7 : DB :=
  { tests := [{ id := 1, start_time := 0, end_time := 7200000,
                is_active := true, total_questions := 40 }],
    questions := [], test_attempts := [], student_answers := [] }

/-- Witness for C7: at `now` inside the window the call is admissible; two
hours after the end it is not. -/
theorem startTest_admissible_iff_witness :
    unavailableErr (startTest dbC7 3600000 1 1 1).1 = false
    ∧ unavailableErr (startTest dbC7 14400000 1 1 1).1 = true := by
  constructor
  · exact (startTest_admissible_iff dbC7
      { id := 1, start_time := 0, end_time := 7200000,
        is_active := true, total_questions := 40 } 3600000 1 1 rfl).mpr
      (by decide)
  · cases hb : unavailableErr (startTest dbC7 14400000 1 1 1).1
    case false =>
      exact absurd ((startTest_admissible_iff dbC7
        { id := 1, start_time := 0, end_time := 7200000,
          is_active := true, total_questions := 40 } 14400000 1 1 rfl).mp hb)
        (by decide)
    case true => rfl

/-! ## C8: distinguishing denial reasons -/

/-- The test used in the C8 scenarios: active, window `[1000, 2000]`. -/
def tC8 : Test :=
  { id := 1, start_time := 1000, end_time := 2000,
    is_active := true, total_questions := 40 }

/-- Store holding only `tC8`. -/
def dbC8 : DB :=
  { tests := [tC8], questions := [], test_attempts := [],
    student_answers := [] }

/-- Store holding only an inactive test. -/
def dbC8I : DB :=
  { tests := [{ id := 2, start_time := 0, end_time := 10,
                is_active := false, total_questions := 40 }],
    questions := [], test_attempts := [], student_answers := [] }

/-- Counterexample to C8: the server-side `start-test` check does not
produce pairwise different denials — a not-yet-started test
(`now = 500 < 1000`) and an expired test (`now = 3000 > 2000`) receive
the identical response `Test is not available at this time`. -/
theorem startTest_denials_not_distinct :
    ((500 : Int) < tC8.start_time ∧ (3000 : Int) > tC8.end_time)
    ∧ (startTest dbC8 500 1 1 1).1
        = .err "Test is not available at this time"
    ∧ (startTest dbC8 3000 1 1 1).1
        = .err "Test is not available at this time"
    ∧ (startTest dbC8 500 1 1 1).1 = (startTest dbC8 3000 1 1 1).1 := by
  decide

/-- C8 amended: the client-side `loadActiveTest` check does return
pairwise-distinct denials — `willStartAt` for a not-yet-started test,
`expired` for an ended one, `noActiveTest` when no single active test is
found — while the server-side `start-test` check answers both window
failures with the same `Test is not available at this time` error. -/
theorem loadActiveTest_distinguishes (db dbI : DB) (t : Test)
    (nowA nowB : Int) (newAttemptId studentId : Nat)
    (ht : db.tests.filter (fun x => x.is_active) = [t])
    (hts : single? (db.tests.filter
      (fun x => x.id == t.id && x.is_active)) = some t)
    (hA : nowA < t.start_time)
    (hB1 : ¬ nowB < t.start_time) (hB2 : nowB > t.end_time)
    (hI : dbI.tests.filter (fun x => x.is_active) = []) :
    loadActiveTest db nowA = .willStartAt t.start_time
    ∧ loadActiveTest db nowB = .expired
    ∧ loadActiveTest dbI nowA = .noActiveTest
    ∧ ClientLoad.willStartAt t.start_time ≠ ClientLoad.expired
    ∧ ClientLoad.willStartAt t.start_time ≠ ClientLoad.noActiveTest
    ∧ ClientLoad.expired ≠ ClientLoad.noActiveTest
    ∧ (startTest db nowA newAttemptId studentId t.id).1
        = .err "Test is not available at this time"
    ∧ (startTest db nowB newAttemptId studentId t.id).1
        = .err "Test is not available at this time" := by
  refine ⟨?_, ?_, ?_, by simp, by simp, by simp, ?_, ?_⟩
  · simp [loadActiveTest, ht, single?, hA]
  · simp [loadActiveTest, ht, single?, hB1, hB2]
  · simp [loadActiveTest, hI, single?]
  · simp [startTest, hts, hA]
  · simp [startTest, hts, hB2]

/-- Witness for the amended C8 at the concrete stores above. -/
theorem loadActiveTest_distinguishes_witness :
    loadActiveTest dbC8 500 = .willStartAt tC8.start_time
    ∧ loadActiveTest dbC8 3000 = .expired
    ∧ loadActiveTest dbC8I 500 = .noActiveTest
    ∧ ClientLoad.willStartAt tC8.start_time ≠ ClientLoad.expired
    ∧ ClientLoad.willStartAt tC8.start_time ≠ ClientLoad.noActiveTest
    ∧ ClientLoad.expired ≠ ClientLoad.noActiveTest
    ∧ (startTest dbC8 500 1 1 tC8.id).1
        = .err "Test is not available at this time"
    ∧ (startTest dbC8 3000 1 1 tC8.id).1
        = .err "Test is not available at this time" :=
  loadActiveTest_distinguishes dbC8 dbC8I tC8 500 3000 1 1
    (by decide) (by decide) (by decide) (by decide) (by decide) (by decide)

/-! ## More helper lemmas -/

/-- Evaluating the score returned by `submit-test` from the counts of
correct and incorrect answer rows of the attempt. -/
theorem submitTest_score_eval (db : DB) (now : Int) (attemptId : Nat)
    (c i : Nat)
    (hc : ((db.student_answers.filter
      (fun a => a.attempt_id == attemptId)).filter
        (fun a => a.is_correct)).length = c)
    (hi : ((db.student_answers.filter
      (fun a => a.attempt_id == attemptId)).filter
        (fun a => !a.is_correct)).length = i) :
    (submitTest db now attemptId).1.score = (c : Rat) - (i : Rat) / 4 := by
  simp only [submitTest, tally_eq, hc, hi]

/-- Every row of the attempt in the post-state of `submit-test` carries
the new `submitted_at`, the recomputed score, and `is_completed`. -/
theorem submitTest_attempt_updated (db : DB) (now : Int) (attemptId : Nat)
    (a : Attempt)
    (hmem : a ∈ (submitTest db now attemptId).2.test_attempts)
    (hid : a.id = attemptId) :
    a.submitted_at = some now ∧ a.is_completed = true
    ∧ a.score = (submitTest db now attemptId).1.score := by
  simp only [submitTest] at hmem
  rcases List.mem_map.mp hmem with ⟨b, hb, hba⟩
  by_cases hbid : (b.id == attemptId) = true
  · rw [if_pos hbid] at hba
    cases hba
    exact ⟨rfl, rfl, rfl⟩
  · rw [if_neg hbid] at hba
    cases hba
    exact absurd (by simp [hid]) hbid

/-- In a list whose matching entries were all overwritten by `a`, the
first match is `a`. -/
theorem find?_overwrite (p : Answer → Bool) (a : Answer) (hpa : p a = true)
    (l : List Answer) (h : l.any p = true) :
    (l.map (fun x => if p x then a else x)).find? p = some a := by
  induction l with
  | nil => simp at h
  | cons y ys ih =>
    by_cases hy : p y = true
    · simp [List.find?_cons, hy, hpa]
    · have h2 : ys.any p = true := by
        simp only [List.any_cons, Bool.or_eq_true] at h
        exact h.resolve_left hy
      simp [List.find?_cons, hy, ih h2]

/-- Appending `a` to a list with no match makes `a` the first match. -/
theorem find?_append_new (p : Answer → Bool) (a : Answer) (hpa : p a = true)
    (l : List Answer) (h : l.any p = false) :
    (l ++ [a]).find? p = some a := by
  induction l with
  | nil => simp [List.find?, hpa]
  | cons y ys ih =>
    simp only [List.any_cons, Bool.or_eq_false_iff] at h
    simp [List.find?_cons, h.1, ih h.2]

/-- After `upsertAnswer`, the lookup for the upserted key returns exactly
the new row. -/
theorem upsertAnswer_find? (l : List Answer) (a : Answer) :
    (upsertAnswer l a).find?
      (fun x => x.attempt_id == a.attempt_id
        && x.question_id == a.question_id) = some a := by
  unfold upsertAnswer
  by_cases h : l.any (fun x => x.attempt_id == a.attempt_id
      && x.question_id == a.question_id) = true
  · rw [if_pos h]
    exact find?_overwrite _ a (by simp) l h
  · rw [if_neg h]
    exact find?_append_new _ a (by simp) l (by
      cases hb : l.any (fun x => x.attempt_id == a.attempt_id
          && x.question_id == a.question_id)
      · rfl
      · exact absurd hb h)

/-! ## C5: idempotent resume of a non-completed attempt -/

/-- C5: when the store already holds a non-completed attempt for this
(student, test) pair and the test is admissible, `start-test` returns the
existing attempt's id and original `started_at` and leaves the store
unchanged, so a second call (at any admissible time) returns the same
pair again and inserts nothing. -/
theorem startTest_resume (db : DB) (t : Test) (a : Attempt)
    (now now2 : Int) (newAttemptId newAttemptId2 studentId testId : Nat)
    (hts : single? (db.tests.filter
      (fun x => x.id == testId && x.is_active)) = some t)
    (h1 : t.start_time ≤ now) (h2 : now ≤ t.end_time)
    (h3 : t.start_time ≤ now2) (h4 : now2 ≤ t.end_time)
    (ha : single? (db.test_attempts.filter
      (fun x => x.student_id == studentId && x.test_id == testId)) = some a)
    (hnc : a.is_completed = false) :
    startTest db now newAttemptId studentId testId
      = (.ok a.id a.started_at, db)
    ∧ startTest db now2 newAttemptId2 studentId testId
      = (.ok a.id a.started_at, db) := by
  constructor <;>
  · simp only [startTest, hts, ha]
    rw [if_neg (by simp; omega)]
    simp [hnc]

/-- A concrete store for the C5 witness: one admissible test and a
non-completed attempt with `started_at = 123`. -/
def dbC5 : DB :=
  { tests := [{ id := 1, start_time := 0, end_time := 7200000,
                is_active := true, total_questions := 40 }],
    questions := [],
    test_attempts := [{ id := 5, student_id := 1, test_id := 1,
                        started_at := 123, submitted_at := none,
                        score := 0, is_completed := false }],
    student_answers := [] }

/-- Witness for C5: both calls return attempt 5 with the original
`started_at = 123`, and the store is returned unchanged. -/
theorem startTest_resume_witness :
    startTest dbC5 1000 9 1 1 = (.ok 5 123, dbC5)
    ∧ startTest dbC5 2000 9 1 1 = (.ok 5 123, dbC5) :=
  startTest_resume dbC5
    { id := 1, start_time := 0, end_time := 7200000,
      is_active := true, total_questions := 40 }
    { id := 5, student_id := 1, test_id := 1, started_at := 123,
      submitted_at := none, score := 0, is_completed := false }
    1000 2000 9 9 1 1
    (by decide) (by decide) (by decide) (by decide) (by decide)
    (by decide) rfl

/-! ## C1: a second `submit-test` call is not a no-op -/

/-- A store whose attempt 1 is already completed with stored score 5 and
`submitted_at = 1000`, while its only stored answer row is incorrect. -/
def dbC1 : DB :=
  { tests := [], questions := [],
    test_attempts := [{ id := 1, student_id := 1, test_id := 1,
                        started_at := 0, submitted_at := some 1000,
                        score := 5, is_completed := true }],
    student_answers := [{ attempt_id := 1, question_id := 7,
                          selected_answer := "B", is_correct := false }] }

/-- Counterexample to C1: calling `submit-test` on the already-completed
attempt does not return the previously stored score 5 — it recomputes
`-0.25` from the stored answers — and it mutates the attempt again,
overwriting `submitted_at`. -/
theorem submitTest_already_completed_recomputes :
    dbC1.test_attempts.map Attempt.is_completed = [true]
    ∧ dbC1.test_attempts.map Attempt.score = [5]
    ∧ (submitTest dbC1 2000 1).1.score = -(1/4)
    ∧ ((5 : Rat) ≠ -(1/4))
    ∧ (submitTest dbC1 2000 1).2.test_attempts.map Attempt.submitted_at
        ≠ dbC1.test_attempts.map Attempt.submitted_at := by
  refine ⟨by decide, by decide, ?_, by norm_num, by decide⟩
  rw [submitTest_score_eval dbC1 2000 1 0 1 (by decide) (by decide)]
  norm_num

/-- C1 amended: the second `submit-test` call recomputes from the stored
answers (which `submit-test` never changes), so it returns the identical
`{score, attempted, correct, incorrect, unattempted}` as the first call,
but it does not short-circuit: it mutates the attempt again, setting
`submitted_at` to the second call's time. -/
theorem submitTest_second_call_behavior (db : DB) (now1 now2 : Int)
    (attemptId : Nat) (a : Attempt)
    (hmem : a ∈ (submitTest (submitTest db now1 attemptId).2
      now2 attemptId).2.test_attempts)
    (hid : a.id = attemptId) :
    (submitTest (submitTest db now1 attemptId).2 now2 attemptId).1
      = (submitTest db now1 attemptId).1
    ∧ a.submitted_at = some now2 ∧ a.is_completed = true := by
  refine ⟨rfl, ?_, ?_⟩
  · exact (submitTest_attempt_updated _ now2 attemptId a hmem hid).1
  · exact (submitTest_attempt_updated _ now2 attemptId a hmem hid).2.1

/-- A store with one non-completed attempt and no answers, for the C1
witness. -/
def dbW1 : DB :=
  { tests := [], questions := [],
    test_attempts := [{ id := 1, student_id := 1, test_id := 1,
                        started_at := 0, submitted_at := none,
                        score := 0, is_completed := false }],
    student_answers := [] }

/-- Witness for the amended C1 at `now1 = 100`, `now2 = 200`. -/
theorem submitTest_second_call_behavior_witness :
    (submitTest (submitTest dbW1 100 1).2 200 1).1
      = (submitTest dbW1 100 1).1
    ∧ ({ id := 1, student_id := 1, test_id := 1, started_at := 0,
         submitted_at := some 200, score := 0,
         is_completed := true } : Attempt).submitted_at = some 200
    ∧ ({ id := 1, student_id := 1, test_id := 1, started_at := 0,
         submitted_at := some 200, score := 0,
         is_completed := true } : Attempt).is_completed = true :=
  submitTest_second_call_behavior dbW1 100 200 1
    { id := 1, student_id := 1, test_id := 1, started_at := 0,
      submitted_at := some 200, score := 0, is_completed := true }
    (by decide) rfl

/-! ## C9: no short-circuit between two finalize calls -/

/-- A store for the C9 race: attempt 1 with one correct recorded answer;
question 2 (correct answer `B`) is still unanswered. -/
def dbC9 : DB :=
  { tests := [],
    questions := [{ id := 2, test_id := 1, correct_answer := "B" }],
    test_attempts := [{ id := 1, student_id := 1, test_id := 1,
                        started_at := 0, submitted_at := none,
                        score := 0, is_completed := false }],
    student_answers := [{ attempt_id := 1, question_id := 3,
                          selected_answer := "A", is_correct := true }] }

/-- Counterexample to C9: after a first finalize (score 1), the second
finalize performs the scoring computation again — recording one more
correct answer in between makes it return score 2, not the stored 1 —
so there is no flag-observing short-circuit and the two calls do not
agree. -/
theorem submitTest_race_counterexample :
    (submitTest dbC9 100 1).1.score = 1
    ∧ (submitTest (submitAnswer (submitTest dbC9 100 1).2 1 2 "B").2
        200 1).1.score = 2
    ∧ (submitTest (submitAnswer (submitTest dbC9 100 1).2 1 2 "B").2
        200 1).1.score ≠ (submitTest dbC9 100 1).1.score := by
  have e1 : (submitTest dbC9 100 1).1.score = 1 := by
    rw [submitTest_score_eval dbC9 100 1 1 0 (by decide) (by decide)]
    norm_num
  have e2 : (submitTest (submitAnswer (submitTest dbC9 100 1).2 1 2 "B").2
      200 1).1.score = 2 := by
    rw [submitTest_score_eval _ 200 1 2 0 (by decide) (by decide)]
    norm_num
  refine ⟨e1, e2, ?_⟩
  rw [e1, e2]
  norm_num

/-- C9 amended: serialized one after the other, both finalize calls run
the scoring computation over the stored answers — the second never reads
`is_completed` and does not short-circuit — but with the answers
unchanged both return the same result, and the stored score is
overwritten with that same value (assigned, not accumulated, so scoring
is not double-applied to the stored score). -/
theorem submitTest_race_serialized (db : DB) (now1 now2 : Int)
    (attemptId : Nat) (a : Attempt)
    (hmem : a ∈ (submitTest (submitTest db now1 attemptId).2
      now2 attemptId).2.test_attempts)
    (hid : a.id = attemptId) :
    (submitTest (submitTest db now1 attemptId).2 now2 attemptId).1
      = (submitTest db now1 attemptId).1
    ∧ a.score = (submitTest db now1 attemptId).1.score
    ∧ a.is_completed = true := by
  refine ⟨rfl, ?_, ?_⟩
  · exact (submitTest_attempt_updated _ now2 attemptId a hmem hid).2.2
  · exact (submitTest_attempt_updated _ now2 attemptId a hmem hid).2.1

/-- A store with one non-completed attempt and no answers, for the C9
witness. -/
def dbW9 : DB :=
  { tests := [], questions := [],
    test_attempts := [{ id := 2, student_id := 1, test_id := 1,
                        started_at := 0, submitted_at := none,
                        score := 0, is_completed := false }],
    student_answers := [] }

/-- Witness for the amended C9 at `now1 = 10`, `now2 = 20`. -/
theorem submitTest_race_serialized_witness :
    (submitTest (submitTest dbW9 10 2).2 20 2).1
      = (submitTest dbW9 10 2).1
    ∧ ({ id := 2, student_id := 1, test_id := 1, started_at := 0,
         submitted_at := some 20, score := 0,
         is_completed := true } : Attempt).score
        = (submitTest dbW9 10 2).1.score
    ∧ ({ id := 2, student_id := 1, test_id := 1, started_at := 0,
         submitted_at := some 20, score := 0,
         is_completed := true } : Attempt).is_completed = true :=
  submitTest_race_serialized dbW9 10 20 2
    { id := 2, student_id := 1, test_id := 1, started_at := 0,
      submitted_at := some 20, score := 0, is_completed := true }
    (by decide) rfl

/-! ## C2: `submit-answer` after finalization -/

/-- A store whose only attempt is already completed, with question 7 on
file and no recorded answers yet. -/
def dbC2 : DB :=
  { tests := [],
    questions := [{ id := 7, test_id := 1, correct_answer := "A" }],
    test_attempts := [{ id := 1, student_id := 1, test_id := 1,
                        started_at := 0, submitted_at := some 50,
                        score := 0, is_completed := true }],
    student_answers := [] }

/-- Counterexample to C2: with the owning attempt completed,
`submit-answer` still reports success and inserts an answer row — the
stored answers do change. -/
theorem submitAnswer_after_finalize_counterexample :
    dbC2.test_attempts.map Attempt.is_completed = [true]
    ∧ (submitAnswer dbC2 1 7 "A").1 = .success
    ∧ (submitAnswer dbC2 1 7 "A").2.student_answers ≠ dbC2.student_answers := by
  decide

/-- C2 amended: `submit-answer` performs no completion check at all —
even when the owning attempt has `is_completed = true` it succeeds and
upserts the row, so the answer for that key afterwards holds the newly
selected value. -/
theorem submitAnswer_ignores_finalization (db : DB)
    (attemptId questionId : Nat) (sel : String) (a : Attempt)
    (_hmem : a ∈ db.test_attempts) (_hid : a.id = attemptId)
    (_hc : a.is_completed = true) :
    (submitAnswer db attemptId questionId sel).1 = .success
    ∧ ((submitAnswer db attemptId questionId sel).2.student_answers.find?
        (fun x => x.attempt_id == attemptId
          && x.question_id == questionId)).map Answer.selected_answer
      = some sel := by
  refine ⟨rfl, ?_⟩
  have h := upsertAnswer_find? db.student_answers
    { attempt_id := attemptId, question_id := questionId,
      selected_answer := sel,
      is_correct := answerIsCorrect db questionId sel }
  simp only [submitAnswer]
  rw [show ((fun (x : Answer) => x.attempt_id == attemptId
      && x.question_id == questionId))
    = (fun (x : Answer) => x.attempt_id
        == ({ attempt_id := attemptId, question_id := questionId,
              selected_answer := sel,
              is_correct := answerIsCorrect db questionId sel }
            : Answer).attempt_id
      && x.question_id
        == ({ attempt_id := attemptId, question_id := questionId,
              selected_answer := sel,
              is_correct := answerIsCorrect db questionId sel }
            : Answer).question_id) from rfl, h]
  rfl

/-- A completed-attempt store for the C2 witness. -/
def dbW2 : DB :=
  { tests := [],
    questions := [{ id := 7, test_id := 1, correct_answer := "A" }],
    test_attempts := [{ id := 3, student_id := 1, test_id := 1,
                        started_at := 0, submitted_at := some 50,
                        score := 0, is_completed := true }],
    student_answers := [] }

/-- Witness for the amended C2. -/
theorem submitAnswer_ignores_finalization_witness :
    (submitAnswer dbW2 3 7 "C").1 = .success
    ∧ ((submitAnswer dbW2 3 7 "C").2.student_answers.find?
        (fun x => x.attempt_id == 3 && x.question_id == 7)).map
          Answer.selected_answer = some "C" :=
  submitAnswer_ignores_finalization dbW2 3 7 "C"
    { id := 3, student_id := 1, test_id := 1, started_at := 0,
      submitted_at := some 50, score := 0, is_completed := true }
    (by decide) rfl rfl

/-! ## C6: answer comparison is exact, not case-normalized -/

/-- A store with question 7 whose correct answer is the uppercase `A`. -/
def dbC6 : DB :=
  { tests := [],
    questions := [{ id := 7, test_id := 1, correct_answer := "A" }],
    test_attempts := [{ id := 1, student_id := 1, test_id := 1,
                        started_at := 0, submitted_at := none,
                        score := 0, is_completed := false }],
    student_answers := [] }

/-- Counterexample to C6: submitting the lowercase `a` against correct
answer `A` is stored with `is_correct = false` (the comparison is strict
`===`), and the selected answer is stored as `a`, not canonicalized to
uppercase. -/
theorem submitAnswer_lowercase_not_correct :
    dbC6.questions.map Question.correct_answer = ["A"]
    ∧ (submitAnswer dbC6 1 7 "a").2.student_answers.map Answer.is_correct
        = [false]
    ∧ (submitAnswer dbC6 1 7 "a").2.student_answers.map
        Answer.selected_answer = ["a"] := by
  decide

/-- C6 amended: `is_correct` is the exact, case-sensitive string equality
`correct_answer == selectedAnswer`, and the selected answer is stored
exactly as submitted. -/
theorem submitAnswer_exact_comparison (db : DB)
    (attemptId questionId : Nat) (sel : String) (q : Question)
    (hq : single? (db.questions.filter
      (fun x => x.id == questionId)) = some q) :
    (submitAnswer db attemptId questionId sel).2.student_answers.find?
      (fun x => x.attempt_id == attemptId && x.question_id == questionId)
    = some { attempt_id := attemptId, question_id := questionId,
             selected_answer := sel,
             is_correct := q.correct_answer == sel } := by
  have hic : answerIsCorrect db questionId sel
      = (q.correct_answer == sel) := by
    simp [answerIsCorrect, hq]
  have h := upsertAnswer_find? db.student_answers
    { attempt_id := attemptId, question_id := questionId,
      selected_answer := sel,
      is_correct := answerIsCorrect db questionId sel }
  rw [hic] at h
  simp only [submitAnswer, hic]
  exact h

/-- Witness for the amended C6: the lowercase submission is stored
verbatim with `is_correct = false`. -/
theorem submitAnswer_exact_comparison_witness :
    (submitAnswer dbC6 1 7 "a").2.student_answers.find?
      (fun x => x.attempt_id == 1 && x.question_id == 7)
    = some { attempt_id := 1, question_id := 7,
             selected_answer := "a", is_correct := ("A" == "a") } :=
  submitAnswer_exact_comparison dbC6 1 7 "a"
    { id := 7, test_id := 1, correct_answer := "A" } (by decide)

/-! ## C10: `submit-answer` for an unknown question -/

/-- C10: when no question row matches `questionId`, `submit-answer` does
not fail — it succeeds, persists the row with `is_correct = false`, and
that row then counts among the `incorrect` answers of a subsequent
finalization. -/
theorem submitAnswer_unknown_question (db : DB)
    (attemptId questionId : Nat) (sel : String) (now : Int)
    (hq : single? (db.questions.filter
      (fun x => x.id == questionId)) = none) :
    (submitAnswer db attemptId questionId sel).1 = .success
    ∧ (submitAnswer db attemptId questionId sel).2.student_answers.find?
        (fun x => x.attempt_id == attemptId && x.question_id == questionId)
      = some { attempt_id := attemptId, question_id := questionId,
               selected_answer := sel, is_correct := false }
    ∧ 0 < (submitTest (submitAnswer db attemptId questionId sel).2
        now attemptId).1.incorrect := by
  have hic : answerIsCorrect db questionId sel = false := by
    simp [answerIsCorrect, hq]
  have h := upsertAnswer_find? db.student_answers
    { attempt_id := attemptId, question_id := questionId,
      selected_answer := sel,
      is_correct := answerIsCorrect db questionId sel }
  rw [hic] at h
  have hfind : (submitAnswer db attemptId questionId sel).2.student_answers.find?
      (fun x => x.attempt_id == attemptId && x.question_id == questionId)
    = some { attempt_id := attemptId, question_id := questionId,
             selected_answer := sel, is_correct := false } := by
    simp only [submitAnswer, hic]
    exact h
  refine ⟨rfl, hfind, ?_⟩
  have hrow :
      ({ attempt_id := attemptId, question_id := questionId,
         selected_answer := sel, is_correct := false } : Answer)
      ∈ (submitAnswer db attemptId questionId sel).2.student_answers :=
    List.mem_of_find?_eq_some hfind
  have hrow2 :
      ({ attempt_id := attemptId, question_id := questionId,
         selected_answer := sel, is_correct := false } : Answer)
      ∈ (((submitAnswer db attemptId questionId sel).2.student_answers.filter
          (fun a => a.attempt_id == attemptId)).filter
            (fun a => !a.is_correct)) := by
    refine List.mem_filter.mpr ⟨List.mem_filter.mpr ⟨hrow, by simp⟩, by simp⟩
  simp only [submitTest, tally_eq]
  exact List.length_pos.mpr (List.ne_nil_of_mem hrow2)

/-- A store whose only question is 2, for the C10 witness (question 9
does not exist). -/
def dbC10 : DB :=
  { tests := [],
    questions := [{ id := 2, test_id := 1, correct_answer := "B" }],
    test_attempts := [{ id := 1, student_id := 1, test_id := 1,
                        started_at := 0, submitted_at := none,
                        score := 0, is_completed := false }],
    student_answers := [] }

/-- Witness for C10 at the nonexistent question 9. -/
theorem submitAnswer_unknown_question_witness :
    (submitAnswer dbC10 1 9 "A").1 = .success
    ∧ (submitAnswer dbC10 1 9 "A").2.student_answers.find?
        (fun x => x.attempt_id == 1 && x.question_id == 9)
      = some { attempt_id := 1, question_id := 9,
               selected_answer := "A", is_correct := false }
    ∧ 0 < (submitTest (submitAnswer dbC10 1 9 "A").2 100 1).1.incorrect :=
  submitAnswer_unknown_question dbC10 1 9 "A" 100 (by decide)

end MockAptitude
